import Mathlib

/-!
Verification of the authentication and authorization core of a club-website
REST backend (`server.ts`), shallowly embedded in Lean 4.

The MySQL store is modelled as an explicit `Database` value holding the rows
of the tables the auth core touches, with each SQL statement of the source
translated to the corresponding pure list operation.  External collaborators
(bcrypt and jsonwebtoken) are modelled as explicit function parameters:
`compare : String → String → Bool` stands for `bcrypt.compare`,
`sign : AdminUser → String` for `jwt.sign` under the process-wide secret, and
`verify : String → Option AdminUser` for `jwt.verify` under the same secret
(`none` is a thrown verification error).  Express handlers become pure
functions from the database state and the request to the new state and the
HTTP response; middleware chains are composed exactly where the source
registers them on a route.
-/

/-- The two admin roles of `types.ts` (`enum AdminRole`). -/
inductive AdminRole where
  | ADMIN : AdminRole
  | SUPERADMIN : AdminRole
deriving DecidableEq, Repr

/-- The token payload / request identity of `types.ts` (`interface AdminUser`):
`clubId` is the tenant scope, `"*"` being the wildcard. -/
structure AdminUser where
  id : Nat
  email : String
  role : AdminRole
  clubId : String
deriving DecidableEq, Repr

/-- A row of the `users` table: email, salted bcrypt hash and superadmin flag. -/
structure UserRow where
  id : Nat
  email : String
  password_hash : String
  is_superadmin : Bool
deriving DecidableEq, Repr

/-- A row of the `club_admins` table binding a user to one club (tenant). -/
structure ClubAdminRow where
  user_id : Nat
  club_id : String
deriving DecidableEq, Repr

/-- A row of the `team_members` table. -/
structure TeamMemberRow where
  id : Nat
  club_id : String
  name : String
  role : String
  grade : String
  bio : String
  photo_url : Option String
deriving DecidableEq, Repr

/-- A row of the `gallery_events` table (`images` is the stored JSON string). -/
structure GalleryEventRow where
  id : Nat
  club_id : String
  title : String
  images : String
deriving DecidableEq, Repr

/-- A row of the `news_articles` table; `created_at` is the row timestamp. -/
structure NewsArticleRow where
  id : Nat
  club_id : String
  title : String
  author : String
  content : String
  image_url : Option String
  created_at : Nat
deriving DecidableEq, Repr

/-- A row of the `blog_posts` table; `created_at` is the row timestamp. -/
structure BlogPostRow where
  id : Nat
  club_id : String
  title : String
  author : String
  excerpt : String
  content : String
  image_url : Option String
  created_at : Nat
deriving DecidableEq, Repr

/-- A row of the `application_forms` table; `updatedAt` is a timestamp. -/
structure ApplicationFormRow where
  url : String
  fileName : String
  updatedAt : Nat
deriving DecidableEq, Repr

/-- The relational store: the tables touched by the handlers under
verification, plus the MySQL auto-increment counters for the tables the
handlers insert into. -/
structure Database where
  users : List UserRow
  users_auto_inc : Nat
  club_admins : List ClubAdminRow
  team_members : List TeamMemberRow
  team_auto_inc : Nat
  gallery_events : List GalleryEventRow
  news_articles : List NewsArticleRow
  news_auto_inc : Nat
  blog_posts : List BlogPostRow
  application_forms : List ApplicationFormRow
deriving DecidableEq, Repr

/-- The JSON (or text) body of an HTTP response, one constructor per response
shape the embedded handlers produce. -/
inductive Body where
  | empty : Body
  | text (s : String) : Body
  | loginPayload (user : AdminUser) (token : String) : Body
  | teamRows (rows : List TeamMemberRow) : Body
  | teamCreated (id : Nat) (name role grade bio : String) (photoUrl : Option String) : Body
  | galleryRows (rows : List GalleryEventRow) : Body
  | newsRows (rows : List NewsArticleRow) : Body
  | newsRow (row : NewsArticleRow) : Body
  | blogRows (rows : List BlogPostRow) : Body
  | formRow (row : ApplicationFormRow) : Body
  | adminsRows (rows : List AdminUser) : Body
deriving DecidableEq, Repr

/-- An HTTP response: status code and body. -/
structure Response where
  status : Nat
  body : Body
deriving DecidableEq, Repr

/-- The part of an HTTP request the auth core reads: the `authorization`
header, absent or a raw string. -/
structure Request where
  authorization : Option String
deriving DecidableEq, Repr

/-- Outcome of a middleware: either it responds (short-circuiting the chain)
or it calls `next` with the identity it attached to the request context. -/
inductive AuthStep where
  | respond (r : Response) : AuthStep
  | next (user : AdminUser) : AuthStep
deriving DecidableEq, Repr

/-- JS `split(' ')` on a character list: cut at every space, no group ever
dropped (the empty input gives one empty group). -/
def splitChars : List Char → List (List Char)
  | [] => [[]]
  | c :: cs =>
    match splitChars cs with
    | [] => if c = ' ' then [[], []] else [[c]]
    | g :: gs => if c = ' ' then [] :: g :: gs else (c :: g) :: gs

/-- JS `String.prototype.split(' ')`. -/
def splitOnSpace (s : String) : List String :=
  (splitChars s.data).map (fun g => String.mk g)

/-- `req.headers.authorization?.split(' ')[1]`, with the JS falsiness of the
missing index and of the empty string folded in (both lead to the 401 branch
of the middleware, hence both are `none` here). -/
def extractToken (authorization : Option String) : Option String :=
  match authorization with
  | none => none
  | some h =>
    match (splitOnSpace h).get? 1 with
    | none => none
    | some t => if t = "" then none else some t

/-- The 401 response of `authMiddleware` for a missing bearer credential. -/
def unauthenticatedResponse : Response :=
  { status := 401, body := Body.text "Access denied. No token provided." }

/-- The 400 response of `authMiddleware` for a failing token verification. -/
def invalidTokenResponse : Response :=
  { status := 400, body := Body.text "Invalid token." }

/-- `authMiddleware` (server.ts:72-84): 401 when no token is carried, 400 when
`jwt.verify` throws, otherwise attach the decoded identity and call `next`. -/
def authMiddleware (verify : String → Option AdminUser) (req : Request) : AuthStep :=
  match extractToken req.authorization with
  | none => AuthStep.respond unauthenticatedResponse
  | some t =>
    match verify t with
    | some u => AuthStep.next u
    | none => AuthStep.respond invalidTokenResponse

/-- The 403 response of `superadminMiddleware`. -/
def forbiddenResponse : Response :=
  { status := 403, body := Body.text "Forbidden. Superadmin access required." }

/-- `superadminMiddleware` (server.ts:86-91): respond 403 unless the attached
identity's role is SUPERADMIN (`req.user?.role !== AdminRole.SUPERADMIN`),
otherwise call `next` (`none`). -/
def superadminMiddleware (user : Option AdminUser) : Option Response :=
  if user.map (fun u => u.role) ≠ some AdminRole.SUPERADMIN then
    some forbiddenResponse
  else
    none

/-- The generic login failure (server.ts:112 and 116). -/
def invalidCredentialsResponse : Response :=
  { status := 400, body := Body.text "Invalid email or password." }

/-- `POST /api/login` (server.ts:108-131): look up the user by email, check
the password with bcrypt, derive role from the superadmin flag, default the
club scope to the wildcard and override it with the first `club_admins`
binding for a regular admin, then sign and return the payload. -/
def login (db : Database) (compare : String → String → Bool)
    (sign : AdminUser → String) (email password : String) : Response :=
  let users := db.users.filter (fun u => u.email == email)
  match users.head? with
  | none => invalidCredentialsResponse
  | some user =>
    if !(compare password user.password_hash) then
      invalidCredentialsResponse
    else
      let role := if user.is_superadmin then AdminRole.SUPERADMIN else AdminRole.ADMIN
      let clubId :=
        if role = AdminRole.ADMIN then
          match (db.club_admins.filter (fun ca => ca.user_id == user.id)).head? with
          | none => "*"
          | some ca => ca.club_id
        else "*"
      let userPayload : AdminUser :=
        { id := user.id, email := user.email, role := role, clubId := clubId }
      { status := 200, body := Body.loginPayload userPayload (sign userPayload) }

/-- The first `users` row matching an email, as `SELECT * FROM users WHERE
email = ?` followed by `users[0]` reads it. -/
def firstUserWithEmail (db : Database) (email : String) : Option UserRow :=
  (db.users.filter (fun u => u.email == email)).head?

/-- The identity payload `login` embeds in the issued token for the user row
it found: role from the `is_superadmin` flag, club scope from the first
`club_admins` binding, defaulting to the wildcard. -/
def issuedPayload (db : Database) (u : UserRow) : AdminUser :=
  let role := if u.is_superadmin then AdminRole.SUPERADMIN else AdminRole.ADMIN
  let clubId :=
    if role = AdminRole.ADMIN then
      match (db.club_admins.filter (fun ca => ca.user_id == u.id)).head? with
      | none => "*"
      | some ca => ca.club_id
    else "*"
  { id := u.id, email := u.email, role := role, clubId := clubId }

/-- `initializeDatabase` (server.ts:51-61), the bootstrap step on the store:
if no `users` row has the superadmin flag set, insert one with the configured
email and the bcrypt hash of the configured password. -/
def initializeDatabase (db : Database) (hash : String → String)
    (email password : String) : Database :=
  let superAdmins := db.users.filter (fun u => u.is_superadmin)
  if superAdmins.length = 0 then
    { db with
      users := db.users ++
        [{ id := db.users_auto_inc, email := email,
           password_hash := hash password, is_superadmin := true }],
      users_auto_inc := db.users_auto_inc + 1 }
  else
    db

/-- `DELETE FROM users WHERE id = ? AND is_superadmin = FALSE` with the
CASCADE removal of the deleted user's `club_admins` rows
(server.ts:236). -/
def deleteAdmin (db : Database) (adminId : Nat) : Database :=
  let removedRow := fun (u : UserRow) => u.id == adminId && u.is_superadmin == false
  { db with
    users := db.users.filter (fun u => !(removedRow u)),
    club_admins := db.club_admins.filter
      (fun ca => !(db.users.any (fun u => removedRow u && u.id == ca.user_id))) }

/-- The `DELETE /api/admins/:adminId` handler body (server.ts:234-238): run
the guarded delete, then respond 204 with an empty body unconditionally. -/
def deleteAdminHandler (db : Database) (adminId : Nat) : Database × Response :=
  (deleteAdmin db adminId, { status := 204, body := Body.empty })

/-- The full `DELETE /api/admins/:adminId` route (server.ts:234):
`authMiddleware`, then `superadminMiddleware`, then the handler. -/
def deleteAdminRoute (verify : String → Option AdminUser) (db : Database)
    (req : Request) (adminId : Nat) : Database × Response :=
  match authMiddleware verify req with
  | AuthStep.respond r => (db, r)
  | AuthStep.next u =>
    match superadminMiddleware (some u) with
    | some r => (db, r)
    | none => deleteAdminHandler db adminId

/-- The `GET /api/admins` route (server.ts:213) with the downstream handler
abstracted: `authMiddleware`, then `superadminMiddleware`, then the
handler on the attached identity. -/
def adminsGetRoute (verify : String → Option AdminUser) (req : Request)
    (handler : AdminUser → Response) : Response :=
  match authMiddleware verify req with
  | AuthStep.respond r => r
  | AuthStep.next u =>
    match superadminMiddleware (some u) with
    | some r => r
    | none => handler u

/-- The fields of `req.body` read by the team POST handler. -/
structure TeamBody where
  name : String
  role : String
  grade : String
  bio : String
deriving DecidableEq, Repr

/-- The `POST /api/clubs/:clubId/team` handler body (server.ts:139-146):
insert a row for the path's club and respond 201; `file` is the uploaded
photo's stored filename, if any.  Note the handler never consults the
attached identity's club scope. -/
def postClubTeamHandler (db : Database) (clubId : String) (body : TeamBody)
    (file : Option String) : Database × Response :=
  let photoUrl := file.map (fun f => "/uploads/" ++ f)
  let row : TeamMemberRow :=
    { id := db.team_auto_inc, club_id := clubId, name := body.name,
      role := body.role, grade := body.grade, bio := body.bio,
      photo_url := photoUrl }
  ({ db with team_members := db.team_members ++ [row],
             team_auto_inc := db.team_auto_inc + 1 },
   { status := 201,
     body := Body.teamCreated db.team_auto_inc body.name body.role body.grade
       body.bio photoUrl })

/-- The full `POST /api/clubs/:clubId/team` route (server.ts:139):
`authMiddleware`, then the handler. -/
def postClubTeamRoute (verify : String → Option AdminUser) (db : Database)
    (req : Request) (clubId : String) (body : TeamBody) (file : Option String) :
    Database × Response :=
  match authMiddleware verify req with
  | AuthStep.respond r => (db, r)
  | AuthStep.next _ => postClubTeamHandler db clubId body file

/-- The fields of `req.body` read by the news POST handler. -/
structure NewsBody where
  title : String
  author : String
  content : String
deriving DecidableEq, Repr

/-- The `POST /api/clubs/:clubId/news` handler body (server.ts:186-194):
insert an article for the path's club, re-select it by id and respond 201
with the stored row; `now` is the timestamp the store assigns to
`created_at`.  Note the handler never consults the attached identity's
club scope. -/
def postClubNewsHandler (db : Database) (clubId : String) (body : NewsBody)
    (file : Option String) (now : Nat) : Database × Response :=
  let imageUrl := file.map (fun f => "/uploads/" ++ f)
  let row : NewsArticleRow :=
    { id := db.news_auto_inc, club_id := clubId, title := body.title,
      author := body.author, content := body.content, image_url := imageUrl,
      created_at := now }
  ({ db with news_articles := db.news_articles ++ [row],
             news_auto_inc := db.news_auto_inc + 1 },
   { status := 201, body := Body.newsRow row })

/-- The full `POST /api/clubs/:clubId/news` route (server.ts:186):
`authMiddleware`, then the handler. -/
def postClubNewsRoute (verify : String → Option AdminUser) (db : Database)
    (req : Request) (clubId : String) (body : NewsBody) (file : Option String)
    (now : Nat) : Database × Response :=
  match authMiddleware verify req with
  | AuthStep.respond r => (db, r)
  | AuthStep.next _ => postClubNewsHandler db clubId body file now

/-- Insert a row into a list that is sorted descending by `key`, keeping the
earlier rows first among equal keys. -/
def insertByKeyDesc (key : α → Nat) (r : α) : List α → List α
  | [] => [r]
  | x :: xs =>
    if key r ≤ key x then x :: insertByKeyDesc key r xs else r :: x :: xs

/-- `ORDER BY key DESC`: sort rows descending by `key` (insertion sort). -/
def sortByKeyDesc (key : α → Nat) (rows : List α) : List α :=
  rows.foldr (insertByKeyDesc key) []

/-- `GET /api/clubs/:clubId/team` (server.ts:134-138): registered with no
middleware, the handler reads only the path parameter and returns the club's
rows. -/
def getClubTeam (db : Database) (_req : Request) (clubId : String) : Response :=
  { status := 200,
    body := Body.teamRows (db.team_members.filter (fun m => m.club_id == clubId)) }

/-- `GET /api/clubs/:clubId/gallery` (server.ts:165-169): registered with no
middleware. -/
def getClubGallery (db : Database) (_req : Request) (clubId : String) : Response :=
  { status := 200,
    body := Body.galleryRows
      (db.gallery_events.filter (fun g => g.club_id == clubId)) }

/-- `GET /api/clubs/:clubId/news` (server.ts:181-185): registered with no
middleware; rows ordered by `created_at DESC`. -/
def getClubNews (db : Database) (_req : Request) (clubId : String) : Response :=
  { status := 200,
    body := Body.newsRows (sortByKeyDesc (fun n => n.created_at)
      (db.news_articles.filter (fun n => n.club_id == clubId))) }

/-- `GET /api/clubs/:clubId/blogs` (server.ts:197-201): registered with no
middleware; rows ordered by `created_at DESC`. -/
def getClubBlogs (db : Database) (_req : Request) (clubId : String) : Response :=
  { status := 200,
    body := Body.blogRows (sortByKeyDesc (fun b => b.created_at)
      (db.blog_posts.filter (fun b => b.club_id == clubId))) }

/-- `SELECT * FROM application_forms ORDER BY updatedAt DESC LIMIT 1`: a row
with the greatest `updatedAt`, the earlier row kept on ties. -/
def latestForm : List ApplicationFormRow → Option ApplicationFormRow
  | [] => none
  | f :: fs =>
    match latestForm fs with
    | none => some f
    | some g => if f.updatedAt < g.updatedAt then some g else some f

/-- `GET /api/clubs/:clubId/application` (server.ts:242-248): registered with
no middleware; 404 when no form row exists, otherwise the latest row. -/
def getApplication (db : Database) (_req : Request) (_clubId : String) : Response :=
  match latestForm db.application_forms with
  | none => { status := 404, body := Body.text "Application form not found." }
  | some f => { status := 200, body := Body.formRow f }

/-! Concrete instances used to witness the theorems below. -/

/-- A regular admin identity scoped to tenant `"A"`. -/
def demoTenantAdmin : AdminUser :=
  { id := 2, email := "admin-a@x.com", role := AdminRole.ADMIN, clubId := "A" }

/-- A `jwt.verify` model accepting exactly the token `"tok-a"`, decoding to
`demoTenantAdmin`. -/
def demoTenantVerify : String → Option AdminUser :=
  fun t => if t = "tok-a" then some demoTenantAdmin else none

/-- A request carrying the bearer token `"tok-a"`. -/
def demoTenantReq : Request := { authorization := some "Bearer tok-a" }

/-- A store with all tables empty and fresh auto-increment counters. -/
def emptyDb : Database :=
  { users := [], users_auto_inc := 1, club_admins := [], team_members := [],
    team_auto_inc := 1, gallery_events := [], news_articles := [],
    news_auto_inc := 1, blog_posts := [], application_forms := [] }

/-- A superadmin `users` row. -/
def demoSuperRow : UserRow :=
  { id := 1, email := "root@x.com", password_hash := "H1", is_superadmin := true }

/-- A regular admin `users` row. -/
def demoAdminRow : UserRow :=
  { id := 2, email := "admin-a@x.com", password_hash := "H2", is_superadmin := false }

/-- A store holding the superadmin row, the regular admin row and the regular
admin's binding to club `"A"`. -/
def demoDb : Database :=
  { users := [demoSuperRow, demoAdminRow], users_auto_inc := 3,
    club_admins := [{ user_id := 2, club_id := "A" }], team_members := [],
    team_auto_inc := 1, gallery_events := [], news_articles := [],
    news_auto_inc := 1, blog_posts := [], application_forms := [] }

/-- A `bcrypt.compare` model matching `"pw1"` against hash `"H1"` and `"pw2"`
against hash `"H2"`. -/
def demoCompare : String → String → Bool :=
  fun password hash =>
    (password == "pw1" && hash == "H1") || (password == "pw2" && hash == "H2")

/-- A `jwt.sign` model issuing a fixed token string. -/
def demoSign : AdminUser → String := fun _ => "tok-a"

/-- Helper: the guarded `DELETE FROM users WHERE id = ? AND is_superadmin =
FALSE` never removes a row whose superadmin flag is set. -/
theorem mem_users_deleteAdmin_of_superadmin (db : Database) (adminId : Nat)
    (u : UserRow) (hu : u ∈ db.users) (hsup : u.is_superadmin = true) :
    u ∈ (deleteAdmin db adminId).users := by
  simp [deleteAdmin, List.mem_filter, hu, hsup]

/-- C5: on a protected request, `authMiddleware` responds 401
(`unauthenticatedResponse`) when the authorization header carries no bearer
credential, responds 400 (`invalidTokenResponse`) when a credential is
present but verification fails, and on successful verification attaches the
decoded identity to the request context and passes control downstream. -/
theorem authMiddleware_token_handling (verify : String → Option AdminUser)
    (req : Request) :
    (req.authorization = none →
      authMiddleware verify req = AuthStep.respond unauthenticatedResponse)
  ∧ (extractToken req.authorization = none →
      authMiddleware verify req = AuthStep.respond unauthenticatedResponse)
  ∧ (∀ t, extractToken req.authorization = some t → verify t = none →
      authMiddleware verify req = AuthStep.respond invalidTokenResponse)
  ∧ (∀ t u, extractToken req.authorization = some t → verify t = some u →
      authMiddleware verify req = AuthStep.next u)
  ∧ unauthenticatedResponse.status = 401 ∧ invalidTokenResponse.status = 400 := by
  refine ⟨?_, ?_, ?_, ?_, rfl, rfl⟩
  · intro h; simp [authMiddleware, extractToken, h]
  · intro h; simp [authMiddleware, h]
  · intro t ht hv; simp [authMiddleware, ht, hv]
  · intro t u ht hv; simp [authMiddleware, ht, hv]

/-- Witness for C5 at concrete requests: missing header yields 401, a present
but unverifiable token yields 400, and the valid token `"tok-a"` attaches
`demoTenantAdmin`. -/
theorem authMiddleware_token_handling_witness :
    authMiddleware demoTenantVerify { authorization := none } =
      AuthStep.respond unauthenticatedResponse
  ∧ authMiddleware demoTenantVerify { authorization := some "Bearer bad" } =
      AuthStep.respond invalidTokenResponse
  ∧ authMiddleware demoTenantVerify demoTenantReq = AuthStep.next demoTenantAdmin :=
  ⟨(authMiddleware_token_handling demoTenantVerify _).1 rfl,
   (authMiddleware_token_handling demoTenantVerify _).2.2.1 "bad" (by decide)
     rfl,
   (authMiddleware_token_handling demoTenantVerify _).2.2.2.1 "tok-a"
     demoTenantAdmin (by decide) rfl⟩

/-- C4: on the superadmin-gated route, `superadminMiddleware` runs only after
`authMiddleware` has succeeded (an auth failure's response is the route's
response), and whenever the attached identity's role is not SUPERADMIN —
in particular a verified token embedding role ADMIN — the route responds
403 (`forbiddenResponse`) for every downstream handler, so the handler is
never reached. -/
theorem superadmin_gate_rejects_non_superadmin
    (verify : String → Option AdminUser) (req : Request) :
    (∀ r handler, authMiddleware verify req = AuthStep.respond r →
      adminsGetRoute verify req handler = r)
  ∧ (∀ u handler, authMiddleware verify req = AuthStep.next u →
      u.role ≠ AdminRole.SUPERADMIN →
      adminsGetRoute verify req handler = forbiddenResponse)
  ∧ forbiddenResponse.status = 403 := by
  refine ⟨?_, ?_, rfl⟩
  · intro r handler h; simp [adminsGetRoute, h]
  · intro u handler h hrole
    simp [adminsGetRoute, h, superadminMiddleware, hrole]

/-- Witness for C4: the signature-valid token `"tok-a"` embeds role ADMIN and
the gated route responds 403 for a concrete handler. -/
theorem superadmin_gate_rejects_non_superadmin_witness :
    adminsGetRoute demoTenantVerify demoTenantReq
      (fun _ => { status := 200, body := Body.empty }) = forbiddenResponse :=
  (superadmin_gate_rejects_non_superadmin demoTenantVerify demoTenantReq).2.1
    demoTenantAdmin (fun _ => { status := 200, body := Body.empty })
    (by decide) (by decide)

/-- C6: the bootstrap routine performs no write against a store that already
holds an account with the superadmin flag set — the store is returned
unchanged — and running it twice equals running it once. -/
theorem bootstrap_idempotent_with_existing_superadmin (db : Database)
    (hash : String → String) (email password : String)
    (h : ∃ u ∈ db.users, u.is_superadmin = true) :
    initializeDatabase db hash email password = db
  ∧ initializeDatabase (initializeDatabase db hash email password) hash
      email password = initializeDatabase db hash email password := by
  have hne : (db.users.filter (fun u => u.is_superadmin)).length ≠ 0 := by
    obtain ⟨u, hu, hsup⟩ := h
    have hmem : u ∈ db.users.filter (fun u => u.is_superadmin) := by
      simp [List.mem_filter, hu, hsup]
    intro hlen
    rw [List.length_eq_zero] at hlen
    simp [hlen] at hmem
  have h1 : initializeDatabase db hash email password = db := by
    simp [initializeDatabase, hne]
  exact ⟨h1, by rw [h1, h1]⟩

/-- Witness for C6 on the concrete store `demoDb`, which holds the superadmin
row `demoSuperRow`. -/
theorem bootstrap_idempotent_witness :
    initializeDatabase demoDb (fun p => p) "root@x.com" "pw1" = demoDb :=
  (bootstrap_idempotent_with_existing_superadmin demoDb (fun p => p)
    "root@x.com" "pw1" ⟨demoSuperRow, by simp [demoDb], rfl⟩).1

/-- C7: the guarded delete statement refuses to remove any account whose
superadmin flag is set — such an account stays in the store for every
requested id — and any account it does remove had the flag unset. -/
theorem delete_refuses_superadmin_accounts (db : Database) (adminId : Nat) :
    (∀ u ∈ db.users, u.is_superadmin = true → u ∈ (deleteAdmin db adminId).users)
  ∧ (∀ u ∈ db.users, u ∉ (deleteAdmin db adminId).users →
      u.is_superadmin = false) := by
  constructor
  · intro u hu hsup
    exact mem_users_deleteAdmin_of_superadmin db adminId u hu hsup
  · intro u hu hnot
    cases hx : u.is_superadmin with
    | false => rfl
    | true =>
      exact absurd (mem_users_deleteAdmin_of_superadmin db adminId u hu hx) hnot

/-- Witness for C7: deleting `demoSuperRow` by its own id leaves it in the
store. -/
theorem delete_refuses_superadmin_accounts_witness :
    demoSuperRow ∈ (deleteAdmin demoDb 1).users :=
  (delete_refuses_superadmin_accounts demoDb 1).1 demoSuperRow
    (by simp [demoDb]) rfl

/-- C9: the delete-admin handler responds 204 with an empty body on every
store and every target id — two runs are indistinguishable in their
responses — so a refused deletion of a superadmin-flagged account is
reported to the requester as success while the account stays stored. -/
theorem delete_admin_uniform_success_response (db db2 : Database)
    (adminId id2 : Nat) (u : UserRow) (hu : u ∈ db.users)
    (_hid : u.id = adminId) (hsup : u.is_superadmin = true) :
    (deleteAdminHandler db adminId).2 = { status := 204, body := Body.empty }
  ∧ (deleteAdminHandler db adminId).2 = (deleteAdminHandler db2 id2).2
  ∧ u ∈ (deleteAdminHandler db adminId).1.users := by
  refine ⟨rfl, rfl, ?_⟩
  exact mem_users_deleteAdmin_of_superadmin db adminId u hu hsup

/-- Witness for C9: deleting the superadmin row of `demoDb` by its id yields
the same 204 response as a deletion that does remove a row, and the row
survives. -/
theorem delete_admin_uniform_success_response_witness :
    (deleteAdminHandler demoDb 1).2 = { status := 204, body := Body.empty }
  ∧ demoSuperRow ∈ (deleteAdminHandler demoDb 1).1.users :=
  ⟨(delete_admin_uniform_success_response demoDb demoDb 1 2 demoSuperRow
      (by simp [demoDb]) rfl rfl).1,
   (delete_admin_uniform_success_response demoDb demoDb 1 2 demoSuperRow
      (by simp [demoDb]) rfl rfl).2.2⟩

/-- Helper: a failed password check against the first user stored under an
email makes `login` return the generic invalid-credentials response. -/
theorem login_wrong_password (db : Database)
    (compare : String → String → Bool) (sign : AdminUser → String)
    (e p : String) (u : UserRow)
    (h1 : firstUserWithEmail db e = some u)
    (h2 : compare p u.password_hash = false) :
    login db compare sign e p = invalidCredentialsResponse := by
  unfold firstUserWithEmail at h1
  simp only [login]
  rw [h1]
  simp [h2]

/-- Helper: a login attempt against an email with no stored user makes
`login` return the generic invalid-credentials response. -/
theorem login_unknown_email (db : Database)
    (compare : String → String → Bool) (sign : AdminUser → String)
    (e p : String) (h : firstUserWithEmail db e = none) :
    login db compare sign e p = invalidCredentialsResponse := by
  unfold firstUserWithEmail at h
  simp only [login]
  rw [h]

/-- C3: a login attempt with a wrong password against a stored email and a
login attempt against an email with no stored user produce equal responses
(same status, same body): the generic 400 invalid-credentials failure. -/
theorem login_failures_indistinguishable (db : Database)
    (compare : String → String → Bool) (sign : AdminUser → String)
    (e1 p1 e2 p2 : String) (u : UserRow)
    (h1 : firstUserWithEmail db e1 = some u)
    (h2 : compare p1 u.password_hash = false)
    (h3 : firstUserWithEmail db e2 = none) :
    login db compare sign e1 p1 = login db compare sign e2 p2
  ∧ login db compare sign e1 p1 = invalidCredentialsResponse
  ∧ invalidCredentialsResponse.status = 400 := by
  have ha := login_wrong_password db compare sign e1 p1 u h1 h2
  have hb := login_unknown_email db compare sign e2 p2 h3
  exact ⟨ha.trans hb.symm, ha, rfl⟩

/-- Witness for C3: in `demoDb`, a wrong password for the stored email
`"root@x.com"` and any password for the unknown email `"ghost@x.com"` give
the same concrete response. -/
theorem login_failures_indistinguishable_witness :
    login demoDb demoCompare demoSign "root@x.com" "wrong" =
      login demoDb demoCompare demoSign "ghost@x.com" "whatever" :=
  (login_failures_indistinguishable demoDb demoCompare demoSign "root@x.com"
    "wrong" "ghost@x.com" "whatever" demoSuperRow (by decide) rfl
    (by decide)).1

/-- C2: for a stored account and a password accepted by the verifier against
its salted hash, `login` succeeds (200) and returns a token that decodes
back to the issued payload, whose role is SUPERADMIN exactly when the
account's superadmin flag is set and ADMIN otherwise. -/
theorem login_role_matches_superadmin_flag (db : Database)
    (compare : String → String → Bool) (sign : AdminUser → String)
    (verify : String → Option AdminUser) (u : UserRow) (password : String)
    (hu : firstUserWithEmail db u.email = some u)
    (hpw : compare password u.password_hash = true)
    (hverify : verify (sign (issuedPayload db u)) = some (issuedPayload db u)) :
    login db compare sign u.email password =
      { status := 200,
        body := Body.loginPayload (issuedPayload db u)
          (sign (issuedPayload db u)) }
  ∧ (verify (sign (issuedPayload db u))).map (fun p => p.role) =
      some (if u.is_superadmin then AdminRole.SUPERADMIN else AdminRole.ADMIN)
  ∧ ((issuedPayload db u).role = AdminRole.SUPERADMIN ↔ u.is_superadmin = true) := by
  refine ⟨?_, ?_, ?_⟩
  · unfold firstUserWithEmail at hu
    simp only [login]
    rw [hu]
    simp [hpw, issuedPayload]
  · rw [hverify]
    cases hx : u.is_superadmin <;> simp [issuedPayload, hx]
  · cases hx : u.is_superadmin <;> simp [issuedPayload, hx]

/-- Witness for C2 at the two stored rows of `demoDb`: the superadmin row
logs in to a SUPERADMIN-role payload and the regular row to an ADMIN-role
payload, under a concrete verifier inverting the concrete signer. -/
theorem login_role_matches_superadmin_flag_witness :
    login demoDb demoCompare demoSign "root@x.com" "pw1" =
      { status := 200,
        body := Body.loginPayload (issuedPayload demoDb demoSuperRow)
          (demoSign (issuedPayload demoDb demoSuperRow)) }
  ∧ ((issuedPayload demoDb demoSuperRow).role = AdminRole.SUPERADMIN ↔
      demoSuperRow.is_superadmin = true) :=
  ⟨(login_role_matches_superadmin_flag demoDb demoCompare demoSign
      (fun t => if t = "tok-a" then some (issuedPayload demoDb demoSuperRow)
        else none)
      demoSuperRow "pw1" (by decide) rfl (by decide)).1,
   (login_role_matches_superadmin_flag demoDb demoCompare demoSign
      (fun t => if t = "tok-a" then some (issuedPayload demoDb demoSuperRow)
        else none)
      demoSuperRow "pw1" (by decide) rfl (by decide)).2.2⟩

/-- C8: a stored non-superadmin account with no `club_admins` binding still
logs in successfully, and the issued payload carries role ADMIN with the
wildcard scope `"*"` — the same scope a superadmin receives — rather than a
failure or an empty scope. -/
theorem login_unbound_admin_gets_wildcard_scope (db : Database)
    (compare : String → String → Bool) (sign : AdminUser → String)
    (u : UserRow) (password : String)
    (hu : firstUserWithEmail db u.email = some u)
    (hpw : compare password u.password_hash = true)
    (hflag : u.is_superadmin = false)
    (hnobind : db.club_admins.filter (fun ca => ca.user_id == u.id) = []) :
    login db compare sign u.email password =
      { status := 200,
        body := Body.loginPayload
          { id := u.id, email := u.email, role := AdminRole.ADMIN, clubId := "*" }
          (sign { id := u.id, email := u.email, role := AdminRole.ADMIN,
                  clubId := "*" }) } := by
  unfold firstUserWithEmail at hu
  simp only [login]
  rw [hu]
  simp [hpw, hflag, hnobind]

/-- Witness for C8: a store like `demoDb` but with no `club_admins` rows
gives the unbound regular admin the wildcard scope at login. -/
theorem login_unbound_admin_gets_wildcard_scope_witness :
    login { demoDb with club_admins := [] } demoCompare demoSign
      "admin-a@x.com" "pw2" =
      { status := 200,
        body := Body.loginPayload
          { id := 2, email := "admin-a@x.com", role := AdminRole.ADMIN,
            clubId := "*" }
          (demoSign { id := 2, email := "admin-a@x.com",
                      role := AdminRole.ADMIN, clubId := "*" }) } :=
  login_unbound_admin_gets_wildcard_scope { demoDb with club_admins := [] }
    demoCompare demoSign demoAdminRow "pw2" (by decide) rfl rfl rfl

/-- C1: the tenant-scoped write handlers perform no tenant-scope check.  A
verified regular-admin identity scoped to tenant `"A"` posting to the team
and news resources of tenant `"B"` is accepted: the token middleware
attaches the identity, the handlers respond 201 and insert rows under club
`"B"`, never comparing the identity's scope `"A"` against the path's
tenant. -/
theorem tenant_scope_check_missing :
    demoTenantAdmin.role = AdminRole.ADMIN
  ∧ demoTenantAdmin.clubId = "A"
  ∧ ("A" : String) ≠ "B"
  ∧ authMiddleware demoTenantVerify demoTenantReq = AuthStep.next demoTenantAdmin
  ∧ (postClubTeamRoute demoTenantVerify emptyDb demoTenantReq "B"
      { name := "n", role := "r", grade := "g", bio := "b" } none).2.status = 201
  ∧ ((postClubTeamRoute demoTenantVerify emptyDb demoTenantReq "B"
      { name := "n", role := "r", grade := "g", bio := "b" } none).1.team_members.filter
      (fun m => m.club_id == "B")).length = 1
  ∧ (postClubNewsRoute demoTenantVerify emptyDb demoTenantReq "B"
      { title := "t", author := "a", content := "c" } none 7).2.status = 201
  ∧ ((postClubNewsRoute demoTenantVerify emptyDb demoTenantReq "B"
      { title := "t", author := "a", content := "c" } none 7).1.news_articles.filter
      (fun n => n.club_id == "B")).length = 1 := by
  refine ⟨rfl, rfl, by decide, by decide, by decide, by decide, by decide,
    by decide⟩

/-- C10: the read endpoints for tenant-scoped content are registered with no
token middleware: a request with no authorization header is served the
stored records (team, gallery, news, blog rows of the club; the latest
application form) — never the 401 unauthenticated failure the token
middleware would produce on the same request. -/
theorem public_get_routes_skip_token_check (db : Database) (req : Request)
    (clubId : String) (hnoauth : req.authorization = none) :
    getClubTeam db req clubId =
      { status := 200,
        body := Body.teamRows
          (db.team_members.filter (fun m => m.club_id == clubId)) }
  ∧ getClubGallery db req clubId =
      { status := 200,
        body := Body.galleryRows
          (db.gallery_events.filter (fun g => g.club_id == clubId)) }
  ∧ getClubNews db req clubId =
      { status := 200,
        body := Body.newsRows (sortByKeyDesc (fun n => n.created_at)
          (db.news_articles.filter (fun n => n.club_id == clubId))) }
  ∧ getClubBlogs db req clubId =
      { status := 200,
        body := Body.blogRows (sortByKeyDesc (fun b => b.created_at)
          (db.blog_posts.filter (fun b => b.club_id == clubId))) }
  ∧ (∀ f, latestForm db.application_forms = some f →
      getApplication db req clubId = { status := 200, body := Body.formRow f })
  ∧ (getApplication db req clubId).status ≠ 401
  ∧ (∀ verify, authMiddleware verify req =
      AuthStep.respond unauthenticatedResponse) := by
  refine ⟨rfl, rfl, rfl, rfl, ?_, ?_, ?_⟩
  · intro f hf
    simp [getApplication, hf]
  · unfold getApplication
    cases latestForm db.application_forms <;> simp
  · intro verify
    simp [authMiddleware, extractToken, hnoauth]

/-- Witness for C10 on a concrete store and the tokenless request: each read
endpoint returns the stored rows of club `"A"`. -/
theorem public_get_routes_skip_token_check_witness :
    getClubTeam demoDb { authorization := none } "A" =
      { status := 200, body := Body.teamRows [] }
  ∧ (getApplication demoDb { authorization := none } "A").status ≠ 401 :=
  ⟨((public_get_routes_skip_token_check demoDb { authorization := none } "A"
      rfl).1).trans (by decide),
   (public_get_routes_skip_token_check demoDb { authorization := none } "A"
      rfl).2.2.2.2.2.1⟩
